import Mathlib

/-!
Shallow embedding of the retrieval-augmented prompt-construction pipeline of
the medical-image-generator repository.

The main subject is the `/generate-prompt` handler `generate_prompt` in
`src/server.py` (lines 223-353): query refinement via an LLM call, document
retrieval under a 20-second bounded wait, context assembly, RAG-mode prompt
synthesis, and a direct-mode fallback.  The external collaborators (the
language model, the retriever backed by MongoDB Atlas vector search) are
modelled as an `Oracle` that fixes the outcome of each call site; the handler
itself is translated faithfully as a pure function from configuration,
request data and oracle to the HTTP response, together with a trace of the
external calls it makes (so that properties such as "the RAG synthesizer is
never invoked" are statable).

A second namespace embeds the Chroma-based pipeline in `src/application.py`,
including the Python calling convention of `build_final_image_prompt`
(two required positional parameters), which its caller
`rag_image_prompt_pipeline` violates.
-/

namespace MedImageGen

/-- A retrieved document; only `page_content` is consumed by the pipeline
(`doc.page_content`, server.py line 296). -/
structure Doc where
  page_content : String
deriving Repr, DecidableEq

/-- Outcome of one `llm.invoke` call: the text content of the response, or a
raised exception carrying a message. -/
inductive LMOutcome where
  | ok (content : String)
  | err (msg : String)
deriving Repr, DecidableEq

/-- Outcome of `future.result(timeout=20)` on the `retrieve_docs` submission
(server.py lines 280-294): the bounded wait can expire
(`concurrent.futures.TimeoutError`), the retriever call can raise, or a list
of documents (possibly empty) is returned. -/
inductive RetrievalOutcome where
  | timeout
  | backendErr (msg : String)
  | docs (ds : List Doc)
deriving Repr, DecidableEq

/-- Fixes the outcome of each external call site inside one invocation of
`generate_prompt`: the refinement `llm.invoke` (lines 262-265), the bounded
retrieval (line 283), the RAG-mode synthesis `llm.invoke` (lines 311-314),
the fallback synthesis `llm.invoke` in the `except` block (lines 323-326) and
the direct synthesis `llm.invoke` of the no-retriever branch (lines 332-335). -/
structure Oracle where
  refine : LMOutcome
  retrieval : RetrievalOutcome
  ragSynth : LMOutcome
  fbSynth : LMOutcome
  directSynth : LMOutcome
deriving Repr, DecidableEq

/-- Python exception values that flow through the handler.  `timeoutError` is
the built-in `TimeoutError` re-raised at line 294, `valueError` the
`ValueError` raised at line 290 for zero documents, `backendError` any
exception escaping `retriever.invoke`, and `lmError` any exception raised by
`llm.invoke`. -/
inductive PyExc where
  | timeoutError (msg : String)
  | valueError (msg : String)
  | backendError (msg : String)
  | lmError (msg : String)
deriving Repr, DecidableEq

/-- The four `llm.invoke` call sites of `generate_prompt`. -/
inductive Site where
  | refineSite
  | ragSite
  | fallbackSite
  | directSite
deriving Repr, DecidableEq

/-- Observable events of one handler invocation: a language-model call with
its system and user messages, the submission of the bounded retrieval, and
the exception caught by the `except` at server.py line 319. -/
inductive Event where
  | lmCall (site : Site) (system user : String)
  | retrieveDocs (query : String)
  | caughtRag (e : PyExc)
deriving Repr, DecidableEq

/-- Process-level configuration visible to the handler: `openai_api_key`
(server.py line 47) and whether the module-level `retriever` is set
(lines 111, 158-161, 179). -/
structure Config where
  openai_api_key : Option String
  retriever : Bool
deriving Repr, DecidableEq

/-- The JSON body of the request as consumed by lines 235-236; a missing key
makes `data.get` fall back to its default. -/
structure RequestData where
  system_instruction : Option String
  user_question : Option String
deriving Repr, DecidableEq

/-- Body of the JSON response: `jsonify({'prompt': ..., 'success': True})` on
the success path (lines 343-346) or `jsonify({'error': ...})` on the error
paths (lines 240, 244, 353). -/
inductive Body where
  | ok (prompt : String) (success : Bool)
  | err (msg : String)
deriving Repr, DecidableEq

/-- A Flask response: JSON body plus HTTP status code. -/
structure Response where
  body : Body
  status : Nat
deriving Repr, DecidableEq

/-- Python truthiness of `os.getenv` results: `None` and the empty string are
falsy (`if not openai_api_key`, server.py line 242). -/
def pyTruthy : Option String → Bool
  | none => false
  | some s => !(s == "")

/-- Semantics of Python `s.strip()`: drop leading and trailing whitespace
(`response.content.strip()`, server.py lines 316, 327, 336). -/
def pyStrip (s : String) : String :=
  ⟨((s.data.dropWhile Char.isWhitespace).reverse.dropWhile Char.isWhitespace).reverse⟩

/-- Semantics of Python `sep.join(xs)`. -/
def pyJoin (sep : String) : List String → String
  | [] => ""
  | [a] => a
  | a :: rest => a ++ sep ++ pyJoin sep (rest)

/-- Twenty spaces: the indentation of the continuation lines of the
triple-quoted strings inside the handler. -/
def sp20 : String := "                    "

/-- Sixteen spaces: the indentation of the closing quotes of those strings. -/
def sp16 : String := "                "

/-- The `extract_system` message of the refinement call
(server.py lines 253-259). -/
def extract_system : String :=
  "Extract:\n" ++ sp20 ++ "1. Primary medical condition\n" ++ sp20 ++
  "2. Mechanism keywords\n" ++ sp20 ++ "3. Clinical keywords\n" ++ sp20 ++
  "\n" ++ sp20 ++ "Return short structured text only.\n" ++ sp16

/-- `context = "\n\n".join([doc.page_content for doc in docs])`
(server.py line 296). -/
def assembleContext (docs : List Doc) : String :=
  pyJoin "\n\n" (docs.map Doc.page_content)

/-- The `construction_prompt` f-string of the RAG synthesis call
(server.py lines 300-308). -/
def construction_prompt (context user_question : String) : String :=
  "\n" ++ sp20 ++ "Retrieved High-Yield Medical Context:\n" ++ sp20 ++
  context ++ "\n" ++ sp20 ++ "\n" ++ sp20 ++ "User Request:\n" ++ sp20 ++
  user_question ++ "\n" ++ sp20 ++ "\n" ++ sp20 ++
  "Return a complete structured image generation prompt following the system instruction guidelines.\n"
  ++ sp16

/-- The user message of the fallback (line 325) and direct (line 334)
synthesis calls. -/
def directUserMessage (user_question : String) : String :=
  "Create a detailed medical illustration prompt for: " ++ user_question

/-- The inner `try` region of the RAG branch (server.py lines 251-317):
refinement call, bounded retrieval, zero-document check, context assembly and
RAG-mode synthesis.  Returns the stripped generated prompt, or the exception
that escapes to the `except` at line 319, together with the events of the
region in order. -/
def ragAttempt (system_instruction user_question : String) (o : Oracle) :
    Except PyExc String × List Event :=
  match o.refine with
  | .err m =>
      (.error (.lmError m), [.lmCall .refineSite extract_system user_question])
  | .ok retrieval_query =>
    match o.retrieval with
    | .timeout =>
        (.error (.timeoutError "Embedding API timeout - please retry"),
         [.lmCall .refineSite extract_system user_question,
          .retrieveDocs retrieval_query])
    | .backendErr m =>
        (.error (.backendError m),
         [.lmCall .refineSite extract_system user_question,
          .retrieveDocs retrieval_query])
    | .docs ds =>
      if ds = [] then
        (.error (.valueError "No documents found"),
         [.lmCall .refineSite extract_system user_question,
          .retrieveDocs retrieval_query])
      else
        match o.ragSynth with
        | .err m =>
            (.error (.lmError m),
             [.lmCall .refineSite extract_system user_question,
              .retrieveDocs retrieval_query,
              .lmCall .ragSite system_instruction
                (construction_prompt (assembleContext ds) user_question)])
        | .ok c =>
            (.ok (pyStrip c),
             [.lmCall .refineSite extract_system user_question,
              .retrieveDocs retrieval_query,
              .lmCall .ragSite system_instruction
                (construction_prompt (assembleContext ds) user_question)])

/-- The `/generate-prompt` handler (server.py lines 223-353) as a pure
function of the configuration, the request body and the oracle.  Mirrors, in
order: the defaulting reads of lines 235-236, the empty-instruction guard
(lines 238-240), the missing-key guard (lines 242-244), then either the RAG
branch with its fallback `except` (lines 249-328) or the direct branch
(lines 329-337), the success return (lines 343-346), and the outer `except`
(lines 348-353) that turns an uncaught exception into a 500 error body. -/
def generate_prompt (cfg : Config) (data : RequestData) (o : Oracle) :
    Response × List Event :=
  let system_instruction := data.system_instruction.getD ""
  let user_question := data.user_question.getD "A serene landscape at sunset"
  if system_instruction = "" then
    (⟨.err "System instruction is required", 400⟩, [])
  else if pyTruthy cfg.openai_api_key then
    if cfg.retriever then
      match ragAttempt system_instruction user_question o with
      | (.ok generated, evs) => (⟨.ok generated true, 200⟩, evs)
      | (.error e, evs) =>
        let evs2 := evs ++
          [.caughtRag e,
           .lmCall .fallbackSite system_instruction (directUserMessage user_question)]
        match o.fbSynth with
        | .ok c => (⟨.ok (pyStrip c) true, 200⟩, evs2)
        | .err m => (⟨.err ("Error generating prompt: " ++ m), 500⟩, evs2)
    else
      match o.directSynth with
      | .ok c =>
          (⟨.ok (pyStrip c) true, 200⟩,
           [.lmCall .directSite system_instruction (directUserMessage user_question)])
      | .err m =>
          (⟨.err ("Error generating prompt: " ++ m), 500⟩,
           [.lmCall .directSite system_instruction (directUserMessage user_question)])
  else
    (⟨.err "OpenAI API key not configured. Please set OPENAI_API_KEY environment variable.", 500⟩,
     [])

/-- The process environment read at startup (server.py lines 47-48). -/
structure Env where
  OPENAI_API_KEY : Option String
  GOOGLE_GENERATIVE_AI_API_KEY : Option String
deriving Repr, DecidableEq

/-- Outcome of the module-level MongoDB/embedding initialisation `try` block
(server.py lines 114-185): any exception in it is caught and leaves
`retriever = None`; on success the document count decides whether a
retriever is built (lines 146-161). -/
inductive MongoInit where
  | initFail
  | connected (docCount : Nat)
deriving Repr, DecidableEq

/-- Module-level startup (server.py lines 45-188).  A missing API key is only
logged (lines 50-58); every initialisation failure is caught, so startup
always completes and yields the configuration the handler closes over. -/
def startup (env : Env) (m : MongoInit) : Config :=
  { openai_api_key := env.OPENAI_API_KEY,
    retriever :=
      match m with
      | .initFail => false
      | .connected n => decide (0 < n) }

end MedImageGen

namespace MedImageGen.App

/-- Outcomes of the external calls of the `application.py` pipeline: the
`extract_retrieval_query` LLM call (lines 30-33), `retriever.invoke`
(line 56) and the synthesis LLM call (lines 75-78). -/
structure AppOracle where
  refine : LMOutcome
  retrieval : Except String (List Doc)
  synth : LMOutcome
deriving Repr

/-- Exceptions of the `application.py` pipeline; `typeError` is Python's
`TypeError` for a call with missing required positional arguments. -/
inductive AppExc where
  | typeError (msg : String)
  | lmError (msg : String)
  | backendError (msg : String)
deriving Repr, DecidableEq

/-- Eight spaces: indentation inside application.py triple-quoted strings. -/
def sp8 : String := "        "

/-- The `system` message of `extract_retrieval_query`
(application.py lines 22-28). -/
def app_extract_system : String :=
  "Extract:\n" ++ sp8 ++ "1. Primary medical condition\n" ++ sp8 ++
  "2. Mechanism keywords\n" ++ sp8 ++ "3. Clinical keywords\n\n" ++ sp8 ++
  "Return short structured text only.\n" ++ sp8

/-- `extract_retrieval_query` (application.py lines 21-35): one LLM call,
returning `response.content`; failures propagate. -/
def extract_retrieval_query (_user_prompt : String) (o : AppOracle) :
    Except AppExc String :=
  match o.refine with
  | .err m => .error (.lmError m)
  | .ok c => .ok c

/-- `retrieve_chunks` (application.py lines 54-57, the later definition that
shadows the first): refine the query, then `retriever.invoke`. -/
def retrieve_chunks (user_prompt : String) (o : AppOracle) :
    Except AppExc (List Doc) :=
  match extract_retrieval_query user_prompt o with
  | .error e => .error e
  | .ok _query =>
    match o.retrieval with
    | .error m => .error (.backendError m)
    | .ok ds => .ok ds

/-- The `construction_prompt` f-string (application.py lines 65-73). -/
def app_construction_prompt (context user_prompt : String) : String :=
  "\n" ++ sp8 ++ "Retrieved High-Yield Context:\n" ++ sp8 ++ context ++
  "\n\n" ++ sp8 ++ "User Prompt:\n" ++ sp8 ++ user_prompt ++ "\n\n" ++ sp8 ++
  "Return a complete structured image generation prompt.\n" ++ sp8

/-- Body of `build_final_image_prompt(user_prompt, system_prompt)`
(application.py lines 59-80); runs only when the call binds both parameters.
Returns `response.content` (not stripped). -/
def build_final_image_prompt (user_prompt _system_prompt : String)
    (o : AppOracle) : Except AppExc String :=
  match retrieve_chunks user_prompt o with
  | .error e => .error e
  | .ok ds =>
    let _context := pyJoin "\n\n" (ds.map Doc.page_content)
    match o.synth with
    | .err m => .error (.lmError m)
    | .ok c => .ok c

/-- Python calling convention for `build_final_image_prompt`: its `def` line
(application.py line 59) declares exactly two required positional parameters
with no defaults, so a call supplying any other number of positional
arguments raises `TypeError` before the body runs. -/
def call_build_final_image_prompt (args : List String) (o : AppOracle) :
    Except AppExc String :=
  match args with
  | [user_prompt, system_prompt] =>
      build_final_image_prompt user_prompt system_prompt o
  | [_user_prompt] =>
      .error (.typeError
        "build_final_image_prompt() missing 1 required positional argument: system_prompt")
  | _ =>
      .error (.typeError
        "build_final_image_prompt() called with a wrong number of arguments")

/-- `rag_image_prompt_pipeline` (application.py lines 83-85): calls
`build_final_image_prompt(user_prompt)` with a single positional argument. -/
def rag_image_prompt_pipeline (user_prompt : String) (o : AppOracle) :
    Except AppExc String :=
  call_build_final_image_prompt [user_prompt] o

end MedImageGen.App

namespace MedImageGen

/-- Context assembly as the spec words it (section 4.2): passage contents
concatenated with a blank-line separator, preserving the order in which the
index returned them.  Stated separately from `assembleContext` (the
translation of server.py line 296) so the two can be compared. -/
def specAssembledContext : List Doc → String
  | [] => ""
  | [d] => d.page_content
  | d :: rest => d.page_content ++ "\n\n" ++ specAssembledContext rest

lemma assembleContext_nil : assembleContext [] = "" := rfl

lemma assembleContext_single (d : Doc) : assembleContext [d] = d.page_content := rfl

lemma assembleContext_cons (d e : Doc) (rest : List Doc) :
    assembleContext (d :: e :: rest) =
      d.page_content ++ "\n\n" ++ assembleContext (e :: rest) := rfl

lemma assembleContext_eq_spec : ∀ ds : List Doc, assembleContext ds = specAssembledContext ds
  | [] => rfl
  | [_] => rfl
  | d :: e :: rest => by
      rw [assembleContext_cons, assembleContext_eq_spec (e :: rest)]
      rfl

lemma assembleContext_contains : ∀ (ds : List Doc), ∀ d ∈ ds,
    ∃ pre post, assembleContext ds = pre ++ d.page_content ++ post
  | [], d, h => absurd h (List.not_mem_nil d)
  | [a], d, h => by
      rcases List.mem_singleton.mp h with rfl
      exact ⟨"", "", by simp [assembleContext_single]⟩
  | a :: b :: rest, d, h => by
      rcases List.mem_cons.mp h with rfl | h
      · exact ⟨"", "\n\n" ++ assembleContext (b :: rest), by
          rw [assembleContext_cons]
          simp [String.append_assoc]⟩
      · obtain ⟨pre, post, hpq⟩ := assembleContext_contains (b :: rest) d h
        refine ⟨a.page_content ++ "\n\n" ++ pre, post, ?_⟩
        rw [assembleContext_cons, hpq]
        simp [String.append_assoc]

end MedImageGen

namespace MedImageGen

/-- C6: for every non-empty list of retrieved passages, the assembled context
equals the passage contents joined with a blank-line separator (two newlines)
in the order returned by the index, and it contains every retrieved
passage. -/
theorem assembled_context_blank_line_join (ds : List Doc) (_hds : ds ≠ []) :
    assembleContext ds = specAssembledContext ds ∧
    ∀ d ∈ ds, ∃ pre post, assembleContext ds = pre ++ d.page_content ++ post :=
  ⟨assembleContext_eq_spec ds, assembleContext_contains ds⟩

/-- C6 witness: the theorem applied to three concrete passages. -/
theorem assembled_context_blank_line_join_witness :
    ([⟨"carpal bones A"⟩, ⟨"carpal bones B"⟩, ⟨"carpal bones C"⟩] : List Doc) ≠ [] ∧
    (assembleContext [⟨"carpal bones A"⟩, ⟨"carpal bones B"⟩, ⟨"carpal bones C"⟩] =
        specAssembledContext [⟨"carpal bones A"⟩, ⟨"carpal bones B"⟩, ⟨"carpal bones C"⟩] ∧
      ∀ d ∈ ([⟨"carpal bones A"⟩, ⟨"carpal bones B"⟩, ⟨"carpal bones C"⟩] : List Doc),
        ∃ pre post,
          assembleContext [⟨"carpal bones A"⟩, ⟨"carpal bones B"⟩, ⟨"carpal bones C"⟩] =
            pre ++ d.page_content ++ post) :=
  ⟨by decide,
   assembled_context_blank_line_join
     [⟨"carpal bones A"⟩, ⟨"carpal bones B"⟩, ⟨"carpal bones C"⟩] (by decide)⟩

/-- C10: `rag_image_prompt_pipeline` calls `build_final_image_prompt` with a
single positional argument although that function requires both `user_prompt`
and `system_prompt`, so for every input and every oracle it raises a
`TypeError` and never returns a prompt. -/
theorem pipeline_always_type_error (up : String) (o : App.AppOracle) :
    App.rag_image_prompt_pipeline up o =
      .error (.typeError
        "build_final_image_prompt() missing 1 required positional argument: system_prompt") ∧
    ∀ s, App.rag_image_prompt_pipeline up o ≠ .ok s := by
  refine ⟨rfl, ?_⟩
  intro s h
  simp [App.rag_image_prompt_pipeline, App.call_build_final_image_prompt] at h

end MedImageGen

namespace MedImageGen

/-- C9 counterexample: with the OpenAI key absent from the environment,
module-level startup completes normally and yields a servable configuration
(no exception is raised at startup); a request is then served and answered
with a per-request 500 error body, with no generation call attempted.  This
contradicts the claim that a configuration error is raised at startup before
any request is served. -/
theorem config_error_at_startup_cex :
    startup ⟨none, none⟩ .initFail = ⟨none, false⟩ ∧
    generate_prompt (startup ⟨none, none⟩ .initFail)
        ⟨some "Describe X", some "hand anatomy"⟩
        ⟨.ok "q", .docs [⟨"carpal bones"⟩], .ok "r", .ok "f", .ok "d"⟩ =
      (⟨.err "OpenAI API key not configured. Please set OPENAI_API_KEY environment variable.",
        500⟩, []) := by
  exact ⟨rfl, by decide⟩

/-- C9 (amended): when the OpenAI API key is missing from the environment,
startup still completes (it only logs), and each `generate_prompt` request is
answered with an error body while no refinement, retrieval or synthesis call
is ever attempted (the event trace is empty). -/
theorem missing_key_per_request_error (env : Env) (m : MongoInit)
    (data : RequestData) (o : Oracle)
    (hkey : env.OPENAI_API_KEY = none) :
    (generate_prompt (startup env m) data o).2 = [] ∧
    ∃ msg, ((generate_prompt (startup env m) data o).1).body = .err msg := by
  by_cases h : data.system_instruction.getD "" = "" <;>
    simp [generate_prompt, startup, pyTruthy, hkey, h]

/-- C9 witness: the amended theorem applied at a concrete keyless
environment. -/
theorem missing_key_per_request_error_witness :
    (Env.mk none none).OPENAI_API_KEY = none ∧
    ((generate_prompt (startup ⟨none, none⟩ (.connected 5))
        ⟨some "Describe X", some "hand anatomy"⟩
        ⟨.ok "q", .docs [⟨"carpal bones"⟩], .ok "r", .ok "f", .ok "d"⟩).2 = [] ∧
      ∃ msg, ((generate_prompt (startup ⟨none, none⟩ (.connected 5))
        ⟨some "Describe X", some "hand anatomy"⟩
        ⟨.ok "q", .docs [⟨"carpal bones"⟩], .ok "r", .ok "f", .ok "d"⟩).1).body = .err msg) :=
  ⟨rfl,
   missing_key_per_request_error ⟨none, none⟩ (.connected 5)
     ⟨some "Describe X", some "hand anatomy"⟩
     ⟨.ok "q", .docs [⟨"carpal bones"⟩], .ok "r", .ok "f", .ok "d"⟩ rfl⟩

/-- C4 counterexample: with the retrieval backend unset, a configured key and
a non-empty instruction, a run in which the direct synthesis LLM call raises
returns an error result (HTTP 500), contradicting the claim that
`generate_prompt` never returns an error in this situation. -/
theorem no_retriever_error_cex :
    (generate_prompt ⟨some "k", false⟩ ⟨some "Describe X", some "hand anatomy"⟩
        ⟨.ok "q", .docs [⟨"carpal bones"⟩], .ok "r", .ok "f", .err "rate limit"⟩).1 =
      ⟨.err "Error generating prompt: rate limit", 500⟩ := by
  decide

/-- C4 (amended): with the retrieval backend unset, a configured key and a
non-empty instruction, `generate_prompt` goes straight to direct-mode
synthesis (the RAG synthesizer is never invoked); it returns a success result
whenever the direct synthesis call succeeds, and an error result when that
call raises. -/
theorem no_retriever_direct_mode (cfg : Config) (data : RequestData) (o : Oracle)
    (si uq : String)
    (hsi : data.system_instruction = some si) (hne : si ≠ "")
    (huq : data.user_question = some uq)
    (hkey : pyTruthy cfg.openai_api_key = true)
    (hretr : cfg.retriever = false) :
    Event.lmCall .directSite si (directUserMessage uq) ∈ (generate_prompt cfg data o).2 ∧
    (∀ s u, Event.lmCall .ragSite s u ∉ (generate_prompt cfg data o).2) ∧
    (∀ c, o.directSynth = .ok c →
      (generate_prompt cfg data o).1 = ⟨.ok (pyStrip c) true, 200⟩) ∧
    (∀ m, o.directSynth = .err m →
      (generate_prompt cfg data o).1 = ⟨.err ("Error generating prompt: " ++ m), 500⟩) := by
  refine ⟨?_, ?_, ?_, ?_⟩
  · cases hdir : o.directSynth <;>
      simp [generate_prompt, hsi, huq, hne, hkey, hretr, hdir]
  · intro s u
    cases hdir : o.directSynth <;>
      simp [generate_prompt, hsi, huq, hne, hkey, hretr, hdir]
  · intro c hc
    simp [generate_prompt, hsi, huq, hne, hkey, hretr, hc]
  · intro m hm
    simp [generate_prompt, hsi, huq, hne, hkey, hretr, hm]

/-- C4 witness: the amended theorem applied at a concrete run whose direct
synthesis call succeeds. -/
theorem no_retriever_direct_mode_witness :
    ("Describe X" : String) ≠ "" ∧
    (Event.lmCall .directSite "Describe X" (directUserMessage "hand anatomy") ∈
        (generate_prompt ⟨some "k", false⟩ ⟨some "Describe X", some "hand anatomy"⟩
          ⟨.ok "q", .docs [⟨"carpal bones"⟩], .ok "r", .ok "f", .ok " Direct prompt. "⟩).2 ∧
      (∀ s u, Event.lmCall .ragSite s u ∉
        (generate_prompt ⟨some "k", false⟩ ⟨some "Describe X", some "hand anatomy"⟩
          ⟨.ok "q", .docs [⟨"carpal bones"⟩], .ok "r", .ok "f", .ok " Direct prompt. "⟩).2) ∧
      (∀ c, (Oracle.mk (.ok "q") (.docs [⟨"carpal bones"⟩]) (.ok "r") (.ok "f")
          (.ok " Direct prompt. ")).directSynth = .ok c →
        (generate_prompt ⟨some "k", false⟩ ⟨some "Describe X", some "hand anatomy"⟩
          ⟨.ok "q", .docs [⟨"carpal bones"⟩], .ok "r", .ok "f", .ok " Direct prompt. "⟩).1 =
          ⟨.ok (pyStrip c) true, 200⟩) ∧
      (∀ m, (Oracle.mk (.ok "q") (.docs [⟨"carpal bones"⟩]) (.ok "r") (.ok "f")
          (.ok " Direct prompt. ")).directSynth = .err m →
        (generate_prompt ⟨some "k", false⟩ ⟨some "Describe X", some "hand anatomy"⟩
          ⟨.ok "q", .docs [⟨"carpal bones"⟩], .ok "r", .ok "f", .ok " Direct prompt. "⟩).1 =
          ⟨.err ("Error generating prompt: " ++ m), 500⟩)) :=
  ⟨by decide,
   no_retriever_direct_mode ⟨some "k", false⟩ ⟨some "Describe X", some "hand anatomy"⟩
     ⟨.ok "q", .docs [⟨"carpal bones"⟩], .ok "r", .ok "f", .ok " Direct prompt. "⟩
     "Describe X" "hand anatomy" rfl (by decide) rfl rfl rfl⟩

end MedImageGen

namespace MedImageGen

/-- Recognizer for refinement-site language-model calls, used to count
refinement attempts in a trace. -/
def isRefineCall : Event → Bool
  | .lmCall .refineSite _ _ => true
  | _ => false

/-- C1 counterexample: refinement and retrieval succeed, the RAG-mode
synthesis call raises, and the handler nevertheless falls back to direct-mode
synthesis and returns a success result — contradicting the claim that the
synthesis failure is surfaced to the caller as a hard error with no
fallback. -/
theorem rag_synth_failure_cex :
    (generate_prompt ⟨some "k", true⟩ ⟨some "Describe X", some "hand anatomy"⟩
        ⟨.ok "q", .docs [⟨"carpal bones"⟩], .err "model unavailable", .ok "FALLBACK", .ok "d"⟩).1 =
      ⟨.ok "FALLBACK" true, 200⟩ ∧
    Event.lmCall .fallbackSite "Describe X" (directUserMessage "hand anatomy") ∈
      (generate_prompt ⟨some "k", true⟩ ⟨some "Describe X", some "hand anatomy"⟩
        ⟨.ok "q", .docs [⟨"carpal bones"⟩], .err "model unavailable", .ok "FALLBACK", .ok "d"⟩).2 := by
  decide

/-- C1 (amended): when refinement and retrieval succeed but the RAG-mode
synthesis call raises, the handler falls back to direct-mode synthesis (the
`except` at server.py line 319 also covers the synthesis call); the failure
surfaces to the caller as a hard error only if that fallback call raises in
turn. -/
theorem rag_synth_failure_falls_back (cfg : Config) (data : RequestData) (o : Oracle)
    (si uq q m : String) (ds : List Doc)
    (hsi : data.system_instruction = some si) (hne : si ≠ "")
    (huq : data.user_question = some uq)
    (hkey : pyTruthy cfg.openai_api_key = true)
    (hretr : cfg.retriever = true)
    (href : o.refine = .ok q)
    (hret : o.retrieval = .docs ds) (hds : ds ≠ [])
    (hrag : o.ragSynth = .err m) :
    Event.lmCall .fallbackSite si (directUserMessage uq) ∈ (generate_prompt cfg data o).2 ∧
    (∀ c, o.fbSynth = .ok c →
      (generate_prompt cfg data o).1 = ⟨.ok (pyStrip c) true, 200⟩) ∧
    (∀ m2, o.fbSynth = .err m2 →
      (generate_prompt cfg data o).1 = ⟨.err ("Error generating prompt: " ++ m2), 500⟩) := by
  refine ⟨?_, ?_, ?_⟩
  · cases hfb : o.fbSynth <;>
      simp [generate_prompt, ragAttempt, hsi, huq, hne, hkey, hretr, href, hret, hds, hrag, hfb]
  · intro c hc
    simp [generate_prompt, ragAttempt, hsi, huq, hne, hkey, hretr, href, hret, hds, hrag, hc]
  · intro m2 hm
    simp [generate_prompt, ragAttempt, hsi, huq, hne, hkey, hretr, href, hret, hds, hrag, hm]

/-- C1 witness: the amended theorem applied at a concrete run whose fallback
call succeeds. -/
theorem rag_synth_failure_falls_back_witness :
    ("Describe X" : String) ≠ "" ∧ ([(⟨"carpal bones"⟩ : Doc)] : List Doc) ≠ [] ∧
    (Event.lmCall .fallbackSite "Describe X" (directUserMessage "hand anatomy") ∈
        (generate_prompt ⟨some "k", true⟩ ⟨some "Describe X", some "hand anatomy"⟩
          ⟨.ok "q", .docs [⟨"carpal bones"⟩], .err "model unavailable", .ok "FALLBACK", .ok "d"⟩).2 ∧
      (∀ c, (Oracle.mk (.ok "q") (.docs [⟨"carpal bones"⟩]) (.err "model unavailable")
          (.ok "FALLBACK") (.ok "d")).fbSynth = .ok c →
        (generate_prompt ⟨some "k", true⟩ ⟨some "Describe X", some "hand anatomy"⟩
          ⟨.ok "q", .docs [⟨"carpal bones"⟩], .err "model unavailable", .ok "FALLBACK", .ok "d"⟩).1 =
          ⟨.ok (pyStrip c) true, 200⟩) ∧
      (∀ m2, (Oracle.mk (.ok "q") (.docs [⟨"carpal bones"⟩]) (.err "model unavailable")
          (.ok "FALLBACK") (.ok "d")).fbSynth = .err m2 →
        (generate_prompt ⟨some "k", true⟩ ⟨some "Describe X", some "hand anatomy"⟩
          ⟨.ok "q", .docs [⟨"carpal bones"⟩], .err "model unavailable", .ok "FALLBACK", .ok "d"⟩).1 =
          ⟨.err ("Error generating prompt: " ++ m2), 500⟩)) :=
  ⟨by decide, by decide,
   rag_synth_failure_falls_back ⟨some "k", true⟩ ⟨some "Describe X", some "hand anatomy"⟩
     ⟨.ok "q", .docs [⟨"carpal bones"⟩], .err "model unavailable", .ok "FALLBACK", .ok "d"⟩
     "Describe X" "hand anatomy" "q" "model unavailable" [⟨"carpal bones"⟩]
     rfl (by decide) rfl rfl rfl rfl rfl (by decide) rfl⟩

/-- C2: when retrieval returns exactly zero passages, the handler raises a
`ValueError` (caught by the fallback `except`) rather than proceeding with an
empty context: the fallback synthesizer is invoked and the RAG-mode
synthesizer is never invoked. -/
theorem zero_passages_triggers_fallback (cfg : Config) (data : RequestData) (o : Oracle)
    (si uq q : String)
    (hsi : data.system_instruction = some si) (hne : si ≠ "")
    (huq : data.user_question = some uq)
    (hkey : pyTruthy cfg.openai_api_key = true)
    (hretr : cfg.retriever = true)
    (href : o.refine = .ok q)
    (hret : o.retrieval = .docs []) :
    Event.caughtRag (.valueError "No documents found") ∈ (generate_prompt cfg data o).2 ∧
    Event.lmCall .fallbackSite si (directUserMessage uq) ∈ (generate_prompt cfg data o).2 ∧
    (∀ s u, Event.lmCall .ragSite s u ∉ (generate_prompt cfg data o).2) := by
  refine ⟨?_, ?_, ?_⟩
  · cases hfb : o.fbSynth <;>
      simp [generate_prompt, ragAttempt, hsi, huq, hne, hkey, hretr, href, hret, hfb]
  · cases hfb : o.fbSynth <;>
      simp [generate_prompt, ragAttempt, hsi, huq, hne, hkey, hretr, href, hret, hfb]
  · intro s u
    cases hfb : o.fbSynth <;>
      simp [generate_prompt, ragAttempt, hsi, huq, hne, hkey, hretr, href, hret, hfb]

/-- C2 witness: the theorem applied at a concrete zero-passage run. -/
theorem zero_passages_triggers_fallback_witness :
    ("Describe X" : String) ≠ "" ∧
    (Event.caughtRag (.valueError "No documents found") ∈
        (generate_prompt ⟨some "k", true⟩ ⟨some "Describe X", some "hand anatomy"⟩
          ⟨.ok "q", .docs [], .ok "r", .ok "f", .ok "d"⟩).2 ∧
      Event.lmCall .fallbackSite "Describe X" (directUserMessage "hand anatomy") ∈
        (generate_prompt ⟨some "k", true⟩ ⟨some "Describe X", some "hand anatomy"⟩
          ⟨.ok "q", .docs [], .ok "r", .ok "f", .ok "d"⟩).2 ∧
      (∀ s u, Event.lmCall .ragSite s u ∉
        (generate_prompt ⟨some "k", true⟩ ⟨some "Describe X", some "hand anatomy"⟩
          ⟨.ok "q", .docs [], .ok "r", .ok "f", .ok "d"⟩).2)) :=
  ⟨by decide,
   zero_passages_triggers_fallback ⟨some "k", true⟩ ⟨some "Describe X", some "hand anatomy"⟩
     ⟨.ok "q", .docs [], .ok "r", .ok "f", .ok "d"⟩ "Describe X" "hand anatomy" "q"
     rfl (by decide) rfl rfl rfl rfl rfl⟩

end MedImageGen

namespace MedImageGen

/-- C3: when the 20-second bounded wait on retrieval expires, the handler
raises a `TimeoutError` whose constructor is distinct from every other
retrieval error (the caught exception is exactly the timeout, never a
`ValueError` or backend error), transitions to the direct-mode fallback, and
does not propagate the timeout to the caller: the RAG synthesizer is never
invoked and a successful fallback call yields a success response. -/
theorem retrieval_timeout_falls_back (cfg : Config) (data : RequestData) (o : Oracle)
    (si uq q : String)
    (hsi : data.system_instruction = some si) (hne : si ≠ "")
    (huq : data.user_question = some uq)
    (hkey : pyTruthy cfg.openai_api_key = true)
    (hretr : cfg.retriever = true)
    (href : o.refine = .ok q)
    (hret : o.retrieval = .timeout) :
    Event.caughtRag (.timeoutError "Embedding API timeout - please retry") ∈
      (generate_prompt cfg data o).2 ∧
    (∀ e, Event.caughtRag e ∈ (generate_prompt cfg data o).2 →
      e = .timeoutError "Embedding API timeout - please retry") ∧
    Event.lmCall .fallbackSite si (directUserMessage uq) ∈ (generate_prompt cfg data o).2 ∧
    (∀ s u, Event.lmCall .ragSite s u ∉ (generate_prompt cfg data o).2) ∧
    (∀ c, o.fbSynth = .ok c →
      (generate_prompt cfg data o).1 = ⟨.ok (pyStrip c) true, 200⟩) := by
  refine ⟨?_, ?_, ?_, ?_, ?_⟩
  · cases hfb : o.fbSynth <;>
      simp [generate_prompt, ragAttempt, hsi, huq, hne, hkey, hretr, href, hret, hfb]
  · intro e he
    cases hfb : o.fbSynth <;>
      simp [generate_prompt, ragAttempt, hsi, huq, hne, hkey, hretr, href, hret, hfb] at he <;>
      exact he
  · cases hfb : o.fbSynth <;>
      simp [generate_prompt, ragAttempt, hsi, huq, hne, hkey, hretr, href, hret, hfb]
  · intro s u
    cases hfb : o.fbSynth <;>
      simp [generate_prompt, ragAttempt, hsi, huq, hne, hkey, hretr, href, hret, hfb]
  · intro c hc
    simp [generate_prompt, ragAttempt, hsi, huq, hne, hkey, hretr, href, hret, hc]

/-- C3 witness: the theorem applied at a concrete timed-out run. -/
theorem retrieval_timeout_falls_back_witness :
    ("Describe X" : String) ≠ "" ∧
    (Event.caughtRag (.timeoutError "Embedding API timeout - please retry") ∈
        (generate_prompt ⟨some "k", true⟩ ⟨some "Describe X", some "hand anatomy"⟩
          ⟨.ok "q", .timeout, .ok "r", .ok "f", .ok "d"⟩).2 ∧
      (∀ e, Event.caughtRag e ∈
          (generate_prompt ⟨some "k", true⟩ ⟨some "Describe X", some "hand anatomy"⟩
            ⟨.ok "q", .timeout, .ok "r", .ok "f", .ok "d"⟩).2 →
        e = .timeoutError "Embedding API timeout - please retry") ∧
      Event.lmCall .fallbackSite "Describe X" (directUserMessage "hand anatomy") ∈
        (generate_prompt ⟨some "k", true⟩ ⟨some "Describe X", some "hand anatomy"⟩
          ⟨.ok "q", .timeout, .ok "r", .ok "f", .ok "d"⟩).2 ∧
      (∀ s u, Event.lmCall .ragSite s u ∉
        (generate_prompt ⟨some "k", true⟩ ⟨some "Describe X", some "hand anatomy"⟩
          ⟨.ok "q", .timeout, .ok "r", .ok "f", .ok "d"⟩).2) ∧
      (∀ c, (Oracle.mk (.ok "q") .timeout (.ok "r") (.ok "f") (.ok "d")).fbSynth = .ok c →
        (generate_prompt ⟨some "k", true⟩ ⟨some "Describe X", some "hand anatomy"⟩
          ⟨.ok "q", .timeout, .ok "r", .ok "f", .ok "d"⟩).1 = ⟨.ok (pyStrip c) true, 200⟩)) :=
  ⟨by decide,
   retrieval_timeout_falls_back ⟨some "k", true⟩ ⟨some "Describe X", some "hand anatomy"⟩
     ⟨.ok "q", .timeout, .ok "r", .ok "f", .ok "d"⟩ "Describe X" "hand anatomy" "q"
     rfl (by decide) rfl rfl rfl rfl rfl⟩

/-- C5: when the query-refinement call raises, the handler catches the
failure, invokes direct-mode synthesis with the user question embedded in the
fallback message, never invokes the RAG synthesizer, and does not retry
refinement (exactly one refinement call appears in the trace). -/
theorem refiner_failure_direct_fallback (cfg : Config) (data : RequestData) (o : Oracle)
    (si uq m : String)
    (hsi : data.system_instruction = some si) (hne : si ≠ "")
    (huq : data.user_question = some uq)
    (hkey : pyTruthy cfg.openai_api_key = true)
    (hretr : cfg.retriever = true)
    (href : o.refine = .err m) :
    Event.lmCall .fallbackSite si (directUserMessage uq) ∈ (generate_prompt cfg data o).2 ∧
    (∀ s u, Event.lmCall .ragSite s u ∉ (generate_prompt cfg data o).2) ∧
    ((generate_prompt cfg data o).2.filter isRefineCall).length = 1 := by
  refine ⟨?_, ?_, ?_⟩
  · cases hfb : o.fbSynth <;>
      simp [generate_prompt, ragAttempt, hsi, huq, hne, hkey, hretr, href, hfb]
  · intro s u
    cases hfb : o.fbSynth <;>
      simp [generate_prompt, ragAttempt, hsi, huq, hne, hkey, hretr, href, hfb]
  · cases hfb : o.fbSynth <;>
      simp [generate_prompt, ragAttempt, hsi, huq, hne, hkey, hretr, href, hfb, isRefineCall]

/-- C5 witness: the theorem applied at a concrete run whose refiner raises. -/
theorem refiner_failure_direct_fallback_witness :
    ("Describe X" : String) ≠ "" ∧
    (Event.lmCall .fallbackSite "Describe X" (directUserMessage "hand anatomy") ∈
        (generate_prompt ⟨some "k", true⟩ ⟨some "Describe X", some "hand anatomy"⟩
          ⟨.err "refiner down", .docs [⟨"carpal bones"⟩], .ok "r", .ok "f", .ok "d"⟩).2 ∧
      (∀ s u, Event.lmCall .ragSite s u ∉
        (generate_prompt ⟨some "k", true⟩ ⟨some "Describe X", some "hand anatomy"⟩
          ⟨.err "refiner down", .docs [⟨"carpal bones"⟩], .ok "r", .ok "f", .ok "d"⟩).2) ∧
      ((generate_prompt ⟨some "k", true⟩ ⟨some "Describe X", some "hand anatomy"⟩
          ⟨.err "refiner down", .docs [⟨"carpal bones"⟩], .ok "r", .ok "f", .ok "d"⟩).2.filter
        isRefineCall).length = 1) :=
  ⟨by decide,
   refiner_failure_direct_fallback ⟨some "k", true⟩ ⟨some "Describe X", some "hand anatomy"⟩
     ⟨.err "refiner down", .docs [⟨"carpal bones"⟩], .ok "r", .ok "f", .ok "d"⟩
     "Describe X" "hand anatomy" "refiner down" rfl (by decide) rfl rfl rfl rfl⟩

end MedImageGen

namespace MedImageGen

lemma ragAttempt_call_sites (si uq : String) (o : Oracle) (site : Site) (s u : String)
    (hmem : Event.lmCall site s u ∈ (ragAttempt si uq o).2) :
    site = Site.refineSite ∨ (site = Site.ragSite ∧ s = si) := by
  obtain ⟨ref, ret, rag, fb, dir⟩ := o
  cases ref
  case err m => simp [ragAttempt] at hmem; simp [hmem]
  case ok q =>
    cases ret
    case timeout => simp [ragAttempt] at hmem; simp [hmem]
    case backendErr m => simp [ragAttempt] at hmem; simp [hmem]
    case docs ds =>
      by_cases hds : ds = []
      · simp [ragAttempt, hds] at hmem; simp [hmem]
      · cases rag <;> simp [ragAttempt, hds] at hmem <;>
          rcases hmem with h | h <;> simp [h.1, h.2.1]

lemma ragAttempt_ok (si uq : String) (o : Oracle) (g : String) (evs : List Event)
    (h : ragAttempt si uq o = (.ok g, evs)) :
    ∃ c, o.ragSynth = .ok c ∧ g = pyStrip c := by
  obtain ⟨ref, ret, rag, fb, dir⟩ := o
  cases ref
  case err m => simp [ragAttempt] at h
  case ok q =>
    cases ret
    case timeout => simp [ragAttempt] at h
    case backendErr m => simp [ragAttempt] at h
    case docs ds =>
      by_cases hds : ds = []
      · simp [ragAttempt, hds] at h
      · cases rag with
        | err m => simp [ragAttempt, hds] at h
        | ok c => exact ⟨c, rfl, by simp [ragAttempt, hds] at h; exact h.1.symm⟩

/-- C7: in every mode (RAG, fallback and direct), each synthesis call passes
the caller-supplied instruction as the system-level message, and every
success response carries the text content of the language-model call that
produced it with leading and trailing whitespace stripped. -/
theorem synthesizer_system_directive_and_strip (cfg : Config) (data : RequestData)
    (o : Oracle) (si : String)
    (hsi : data.system_instruction = some si) (hne : si ≠ "")
    (hkey : pyTruthy cfg.openai_api_key = true) :
    (∀ site s u, Event.lmCall site s u ∈ (generate_prompt cfg data o).2 →
        site ≠ Site.refineSite → s = si) ∧
    (∀ p b, ((generate_prompt cfg data o).1).body = Body.ok p b →
        ∃ c, (o.ragSynth = .ok c ∨ o.fbSynth = .ok c ∨ o.directSynth = .ok c) ∧
          p = pyStrip c) := by
  cases hretr : cfg.retriever
  case false =>
    cases hdir : o.directSynth with
    | ok c =>
      refine ⟨fun site s u hmem hsite => ?_, fun p b hp => ?_⟩
      · simp [generate_prompt, hsi, hne, hkey, hretr, hdir] at hmem
        first | exact hmem.2.1 | exact hmem.2.1.symm
      · simp [generate_prompt, hsi, hne, hkey, hretr, hdir] at hp
        exact ⟨c, Or.inr (Or.inr rfl), by first | exact hp.1 | exact hp.1.symm⟩
    | err m =>
      refine ⟨fun site s u hmem hsite => ?_, fun p b hp => ?_⟩
      · simp [generate_prompt, hsi, hne, hkey, hretr, hdir] at hmem
        first | exact hmem.2.1 | exact hmem.2.1.symm
      · simp [generate_prompt, hsi, hne, hkey, hretr, hdir] at hp
  case true =>
    rcases hra : ragAttempt si (data.user_question.getD "A serene landscape at sunset") o
      with ⟨res, evs⟩
    cases res
    case ok g =>
      obtain ⟨c, hc, hg⟩ := ragAttempt_ok _ _ _ _ _ hra
      refine ⟨fun site s u hmem hsite => ?_, fun p b hp => ?_⟩
      · simp [generate_prompt, hsi, hne, hkey, hretr, hra] at hmem
        have hsites := ragAttempt_call_sites si
          (data.user_question.getD "A serene landscape at sunset") o site s u
          (by rw [hra]; exact hmem)
        rcases hsites with h | h
        · exact absurd h hsite
        · exact h.2
      · simp [generate_prompt, hsi, hne, hkey, hretr, hra] at hp
        refine ⟨c, Or.inl hc, ?_⟩
        rw [← hg]
        first | exact hp.1 | exact hp.1.symm
    case error e =>
      cases hfb : o.fbSynth with
      | ok c =>
        refine ⟨fun site s u hmem hsite => ?_, fun p b hp => ?_⟩
        · simp [generate_prompt, hsi, hne, hkey, hretr, hra, hfb] at hmem
          rcases hmem with h | h
          · have hsites := ragAttempt_call_sites si
              (data.user_question.getD "A serene landscape at sunset") o site s u
              (by rw [hra]; exact h)
            rcases hsites with h2 | h2
            · exact absurd h2 hsite
            · exact h2.2
          · first | exact h.2.1 | exact h.2.1.symm
        · simp [generate_prompt, hsi, hne, hkey, hretr, hra, hfb] at hp
          exact ⟨c, Or.inr (Or.inl rfl), by first | exact hp.1 | exact hp.1.symm⟩
      | err m =>
        refine ⟨fun site s u hmem hsite => ?_, fun p b hp => ?_⟩
        · simp [generate_prompt, hsi, hne, hkey, hretr, hra, hfb] at hmem
          rcases hmem with h | h
          · have hsites := ragAttempt_call_sites si
              (data.user_question.getD "A serene landscape at sunset") o site s u
              (by rw [hra]; exact h)
            rcases hsites with h2 | h2
            · exact absurd h2 hsite
            · exact h2.2
          · first | exact h.2.1 | exact h.2.1.symm
        · simp [generate_prompt, hsi, hne, hkey, hretr, hra, hfb] at hp

/-- C7 witness: the theorem applied at a concrete RAG-success run whose model
reply carries surrounding whitespace. -/
theorem synthesizer_system_directive_and_strip_witness :
    ("Describe X" : String) ≠ "" ∧
    ((∀ site s u, Event.lmCall site s u ∈
        (generate_prompt ⟨some "k", true⟩ ⟨some "Describe X", some "hand anatomy"⟩
          ⟨.ok "q", .docs [⟨"carpal bones"⟩], .ok " A precise prompt. ", .ok "f", .ok "d"⟩).2 →
        site ≠ Site.refineSite → s = "Describe X") ∧
      (∀ p b, ((generate_prompt ⟨some "k", true⟩ ⟨some "Describe X", some "hand anatomy"⟩
          ⟨.ok "q", .docs [⟨"carpal bones"⟩], .ok " A precise prompt. ", .ok "f", .ok "d"⟩).1).body =
            Body.ok p b →
        ∃ c, ((Oracle.mk (.ok "q") (.docs [⟨"carpal bones"⟩]) (.ok " A precise prompt. ")
            (.ok "f") (.ok "d")).ragSynth = .ok c ∨
          (Oracle.mk (.ok "q") (.docs [⟨"carpal bones"⟩]) (.ok " A precise prompt. ")
            (.ok "f") (.ok "d")).fbSynth = .ok c ∨
          (Oracle.mk (.ok "q") (.docs [⟨"carpal bones"⟩]) (.ok " A precise prompt. ")
            (.ok "f") (.ok "d")).directSynth = .ok c) ∧
          p = pyStrip c)) :=
  ⟨by decide,
   synthesizer_system_directive_and_strip ⟨some "k", true⟩
     ⟨some "Describe X", some "hand anatomy"⟩
     ⟨.ok "q", .docs [⟨"carpal bones"⟩], .ok " A precise prompt. ", .ok "f", .ok "d"⟩
     "Describe X" rfl (by decide) rfl⟩

end MedImageGen

namespace MedImageGen

/-- C8 counterexample: a run that succeeds through the RAG path and a run
that succeeds through the direct path return identical results to the caller
(`{prompt, success}` with status 200, and nothing else), although their
traces show different synthesis paths — so the result carries no flag or
marker indicating which path produced the prompt. -/
theorem done_no_path_marker_cex :
    (generate_prompt ⟨some "k", true⟩ ⟨some "Describe X", some "hand anatomy"⟩
        ⟨.ok "q", .docs [⟨"carpal bones"⟩], .ok "P", .ok "f", .ok "d"⟩).1 =
      (generate_prompt ⟨some "k", false⟩ ⟨some "Describe X", some "hand anatomy"⟩
        ⟨.ok "q", .docs [⟨"carpal bones"⟩], .ok "r", .ok "f", .ok "P"⟩).1 ∧
    Event.lmCall .ragSite "Describe X"
        (construction_prompt (assembleContext [⟨"carpal bones"⟩]) "hand anatomy") ∈
      (generate_prompt ⟨some "k", true⟩ ⟨some "Describe X", some "hand anatomy"⟩
        ⟨.ok "q", .docs [⟨"carpal bones"⟩], .ok "P", .ok "f", .ok "d"⟩).2 ∧
    Event.lmCall .directSite "Describe X" (directUserMessage "hand anatomy") ∈
      (generate_prompt ⟨some "k", false⟩ ⟨some "Describe X", some "hand anatomy"⟩
        ⟨.ok "q", .docs [⟨"carpal bones"⟩], .ok "r", .ok "f", .ok "P"⟩).2 := by
  refine ⟨by decide, ?_, by decide⟩
  simp [generate_prompt, ragAttempt, pyTruthy]

/-- C8 (amended): every result of `generate_prompt` is either a success body
holding the generated prompt together with `success = true` (and nothing
distinguishing the RAG path from the direct path), or an error body of the
form `{error: string}`. -/
theorem done_result_shape (cfg : Config) (data : RequestData) (o : Oracle) :
    (∃ p, ((generate_prompt cfg data o).1).body = Body.ok p true) ∨
    (∃ m, ((generate_prompt cfg data o).1).body = Body.err m) := by
  by_cases hsi : data.system_instruction.getD "" = ""
  · exact Or.inr ⟨"System instruction is required", by simp [generate_prompt, hsi]⟩
  · cases hkey : pyTruthy cfg.openai_api_key
    · exact Or.inr
        ⟨"OpenAI API key not configured. Please set OPENAI_API_KEY environment variable.",
         by simp [generate_prompt, hsi, hkey]⟩
    · cases hretr : cfg.retriever
      · cases hdir : o.directSynth with
        | ok c =>
            exact Or.inl ⟨pyStrip c, by simp [generate_prompt, hsi, hkey, hretr, hdir]⟩
        | err m =>
            exact Or.inr ⟨"Error generating prompt: " ++ m,
              by simp [generate_prompt, hsi, hkey, hretr, hdir]⟩
      · rcases hra : ragAttempt (data.system_instruction.getD "")
          (data.user_question.getD "A serene landscape at sunset") o with ⟨res, evs⟩
        cases res with
        | ok g =>
            exact Or.inl ⟨g, by simp [generate_prompt, hsi, hkey, hretr, hra]⟩
        | error e =>
          cases hfb : o.fbSynth with
          | ok c =>
              exact Or.inl ⟨pyStrip c,
                by simp [generate_prompt, hsi, hkey, hretr, hra, hfb]⟩
          | err m =>
              exact Or.inr ⟨"Error generating prompt: " ++ m,
                by simp [generate_prompt, hsi, hkey, hretr, hra, hfb]⟩

end MedImageGen
